import Mathlib

/-!
Shallow embedding of the backend in src/backend/app.py.

The program is a FastAPI service with two non-trivial handlers:

* /chat (lines 66-117): asks a structured-completion client for an initial
  result, runs a web search on the returned keywords, scrapes the top five
  links, and asks the completion client twice more to summarize and explain
  the scraped corpus, finally overwriting three fields of the initial result.
* /preview (lines 120-145): fetches a page and returns its title and the
  network host of the url, or a fixed error payload on any exception.

External effects (completion calls, the search provider, page fetching and
HTML parsing, urlparse) are modelled by an Oracle structure: an arbitrary
environment supplying the outcome of each outbound call. The chat handler is
additionally instrumented with a trace of the outbound calls it makes, in
order, so that call counts and call inputs can be stated.

Machine-level conventions of the Python source that matter here:

* a dict .get(key) with no default is None when the key is missing, so an
  organic search-result entry carries link : Option String;
* pydantic validates the completion output against the Response schema, but
  plain attribute assignment (lines 113-115) is not re-validated, so the
  relevant_sources field is embedded as List (Option String): validated model
  output holds only some-values, while the assignment at line 116 may store
  none at positions whose organic result lacked a link key;
* the try/except of the scraping loop (lines 93-101) turns the raised
  exception into Except.error carrying str(e);
* Python f-string formatting renders None as the text "None".
-/

/-- A chat message, modelling the Python dict with role and content keys
(lines 67-70). -/
structure Message where
  role : String
  content : String
deriving DecidableEq, Repr

/-- The pydantic ChatInput model (line 23): the /chat request body. -/
structure ChatInput where
  input_message : String
deriving DecidableEq, Repr

/-- The pydantic Response model (lines 26-31): the structured output schema.
The relevant_sources entries are Option String for the reason given in the
file header; schema-validated output uses only some-values. -/
structure Response where
  summary : String
  full_explanation : String
  relevant_sources : List (Option String)
  search_keywords : List String
deriving DecidableEq, Repr

/-- One organic search-result entry; the handler only reads result.get("link")
(line 88), which is none when the key is missing. -/
structure OrganicResult where
  link : Option String
deriving DecidableEq, Repr

/-- The search provider response dict as consumed at line 87: the
organic_results key may be absent (none). -/
structure SearchDict where
  organic_results : Option (List OrganicResult)
deriving DecidableEq, Repr

/-- A parsed title element; its string attribute is none when the element has
no single string content (for example an empty title element). -/
structure TitleTag where
  string : Option String
deriving DecidableEq, Repr

/-- A parsed HTML page as consumed by app.py: the optional title element and
the text of each paragraph element in document order (p.get_text()). -/
structure Soup where
  title : Option TitleTag
  paragraphs : List String
deriving DecidableEq, Repr

/-- Python str() rendering of a url that may be None, as produced by f-string
formatting at line 101. -/
def pyUrlStr : Option String → String
  | some s => s
  | none => "None"

/-- The external environment of one request: completions n is the result of
the n-th structured-completion call (0-indexed, in call order), searchResult
is the search provider response for the single search, fetch gives the
outcome of requests.get + raise_for_status + BeautifulSoup for a url
(Except.error carries str(e) of the raised exception), and netloc is
urlparse(url).netloc. -/
structure Oracle where
  completions : Nat → Response
  searchResult : SearchDict
  fetch : Option String → Except String Soup
  netloc : String → String

/-- One outbound call made by a handler, recorded in order. -/
inductive ChatEvent
  | completionCall (messages : List Message)
  | searchCall (query : String)
  | fetchCall (url : Option String)
deriving DecidableEq, Repr

/-- The fixed system preamble of the chat handler (line 68). -/
def systemPreamble : String :=
  "you\x27re a helpful assistant that responds to the user\x27s message in a friendly way. you are also a great tutor and explain concepts in a way that is easy to understand. you answer all queries using knowledge from the internet."

/-- The initial two-message conversation (lines 67-70). -/
def initialMessages (input_message : String) : List Message :=
  [⟨"system", systemPreamble⟩, ⟨"user", input_message⟩]

/-- Line 74: the first completion call result, bound to the variable result. -/
def chatResult0 (o : Oracle) : Response := o.completions 0

/-- Line 80: the keywords joined into a single search query string. -/
def searchQuery (o : Oracle) : String :=
  String.intercalate " " (chatResult0 o).search_keywords

/-- Line 87: search_results.get("organic_results", []). -/
def organicResults (o : Oracle) : List OrganicResult :=
  o.searchResult.organic_results.getD []

/-- Line 88: the link value of each of the first five organic results. -/
def chatRelevantSources (o : Oracle) : List (Option String) :=
  ((organicResults o).take 5).map (fun r => r.link)

/-- Lines 93-101: one iteration of the scraping loop. The try block either
yields the space-joined paragraph texts (line 98) or, on any exception, the
sentinel string of line 101. -/
def scrapeOne (fetch : Option String → Except String Soup) (url : Option String) : String :=
  match fetch url with
  | Except.ok soup => String.intercalate " " soup.paragraphs
  | Except.error e => "Error fetching content from " ++ pyUrlStr url ++ ": " ++ e

/-- Lines 91-101: relevant_information, collected in link order. -/
def chatRelevantInformation (o : Oracle) : List String :=
  (chatRelevantSources o).map (scrapeOne o.fetch)

/-- Line 104: the scraped texts joined into a single string. -/
def summaryInput (o : Oracle) : String :=
  String.intercalate " " (chatRelevantInformation o)

/-- Lines 105-106: the conversation after both system instructions are
appended to the same growing message list. -/
def finalMessages (o : Oracle) (input_message : String) : List Message :=
  initialMessages input_message ++
    [⟨"system", "Summarize the following information: " ++ summaryInput o⟩,
     ⟨"system", "Give a detailed explanation of the following information: " ++ summaryInput o⟩]

/-- Lines 107-116: the two final completion calls and the in-place field
updates on the first call result. -/
def chatFinalResult (o : Oracle) : Response :=
  let result := chatResult0 o
  let summary_result := o.completions 1
  let full_explanation_result := o.completions 2
  { result with
      summary := summary_result.summary
      full_explanation := full_explanation_result.full_explanation
      relevant_sources := chatRelevantSources o }

/-- The /chat response body (line 117). -/
structure ChatResponse where
  my_response : Response
deriving DecidableEq, Repr

/-- The /chat handler (lines 66-117): the response body together with the
ordered trace of outbound calls it makes. -/
def chat (o : Oracle) (input : ChatInput) : ChatResponse × List ChatEvent :=
  (⟨chatFinalResult o⟩,
   [ChatEvent.completionCall (initialMessages input.input_message),
    ChatEvent.searchCall (searchQuery o)]
   ++ (chatRelevantSources o).map ChatEvent.fetchCall
   ++ [ChatEvent.completionCall (finalMessages o input.input_message),
       ChatEvent.completionCall (finalMessages o input.input_message)])

/-- The /preview response: either the normal payload (no error key) or the
error payload of lines 141-145. -/
inductive PreviewResponse
  | success (title : Option String) (url_host : String)
  | failure (title : String) (url_host : String) (error : String)
deriving DecidableEq, Repr

/-- Line 131: soup.title.string if soup.title else "No title found". -/
def previewTitle (soup : Soup) : Option String :=
  match soup.title with
  | some t => t.string
  | none => some "No title found"

/-- The /preview handler (lines 120-145). -/
def get_preview (o : Oracle) (url : String) : PreviewResponse :=
  match o.fetch (some url) with
  | Except.ok soup => PreviewResponse.success (previewTitle soup) (o.netloc url)
  | Except.error e => PreviewResponse.failure "Error fetching preview" "Error" e

/-- Recognizer for completion-call events. -/
def isCompletionCall : ChatEvent → Bool
  | ChatEvent.completionCall _ => true
  | _ => false

/-- Recognizer for search-call events. -/
def isSearchCall : ChatEvent → Bool
  | ChatEvent.searchCall _ => true
  | _ => false

/-- Number of completion calls in a trace. -/
def completionCallCount (t : List ChatEvent) : Nat :=
  (t.filter isCompletionCall).length

/-- Number of search calls in a trace. -/
def searchCallCount (t : List ChatEvent) : Nat :=
  (t.filter isSearchCall).length

/-- The message lists passed to the completion client, in call order. -/
def completionInputs (t : List ChatEvent) : List (List Message) :=
  t.filterMap (fun e => match e with
    | ChatEvent.completionCall m => some m
    | _ => none)

/-- The urls passed to the page fetcher, in call order. -/
def fetchCalls (t : List ChatEvent) : List (Option String) :=
  t.filterMap (fun e => match e with
    | ChatEvent.fetchCall u => some u
    | _ => none)

/-! Concrete environments used by the witness theorems. -/

/-- A sample structured-completion output (schema-validated, so all
relevant_sources entries are some-values). -/
def sampleResponse : Response :=
  ⟨"a summary", "an explanation", [some "http://s"], ["lean", "proofs"]⟩

/-- A sample fetched page with a titled head and two paragraphs. -/
def sampleSoup : Soup := ⟨some ⟨some "Example"⟩, ["hello", "world"]⟩

/-- A sample environment: two organic results, the second lacking a link key;
fetching the first link succeeds, fetching anything else raises. -/
def sampleOracle : Oracle where
  completions := fun _ => sampleResponse
  searchResult := ⟨some [⟨some "http://a"⟩, ⟨none⟩]⟩
  fetch := fun u => if u = some "http://a" then Except.ok sampleSoup else Except.error "boom"
  netloc := fun _ => "example.com"

/-- An environment whose search response has no organic_results key and whose
every fetch raises. -/
def emptyOracle : Oracle where
  completions := fun _ => sampleResponse
  searchResult := ⟨none⟩
  fetch := fun _ => Except.error "boom"
  netloc := fun _ => ""

/-- A page whose title element is present but has no string content. -/
def emptyTitleSoup : Soup := ⟨some ⟨none⟩, []⟩

/-- An environment whose every fetch yields the empty-title page. -/
def emptyTitleOracle : Oracle where
  completions := fun _ => sampleResponse
  searchResult := ⟨some []⟩
  fetch := fun _ => Except.ok emptyTitleSoup
  netloc := fun _ => "host"

/-! Helper lemmas about the call trace. -/

theorem filter_isCompletionCall_map_fetchCall (l : List (Option String)) :
    (l.map ChatEvent.fetchCall).filter isCompletionCall = [] := by
  induction l with
  | nil => rfl
  | cons a l ih => simp [List.filter_cons, isCompletionCall, ih]

theorem filter_isSearchCall_map_fetchCall (l : List (Option String)) :
    (l.map ChatEvent.fetchCall).filter isSearchCall = [] := by
  induction l with
  | nil => rfl
  | cons a l ih => simp [List.filter_cons, isSearchCall, ih]

theorem completionInputs_map_fetchCall (l : List (Option String)) :
    completionInputs (l.map ChatEvent.fetchCall) = [] := by
  induction l with
  | nil => rfl
  | cons a l ih => simp [completionInputs, List.filterMap_cons, ih]

theorem fetchCalls_map_fetchCall (l : List (Option String)) :
    fetchCalls (l.map ChatEvent.fetchCall) = l := by
  induction l with
  | nil => rfl
  | cons a l ih => simpa [fetchCalls, List.filterMap_cons] using ih

/-- The urls passed to the page fetcher during a chat request are exactly the
relevant sources, in order. -/
theorem fetchCalls_chat (o : Oracle) (input : ChatInput) :
    fetchCalls (chat o input).2 = chatRelevantSources o := by
  simp [chat, fetchCalls, List.filterMap_append]
  simpa [fetchCalls] using fetchCalls_map_fetchCall (chatRelevantSources o)

/-- The scraped corpus has one entry per relevant source. -/
theorem chatRelevantInformation_length (o : Oracle) :
    (chatRelevantInformation o).length = (chatRelevantSources o).length := by
  simp [chatRelevantInformation]

/-! Claim theorems. -/

/-- C1: In every /chat request, the final StructuredResult has its summary
overwritten from the second completion call, its full_explanation from the
third completion call, and its relevant_sources from the search step, while
its search_keywords field is exactly the search_keywords produced by the
first completion call and is changed by no later step. -/
theorem chat_field_provenance (o : Oracle) (input : ChatInput) :
    ((chat o input).1.my_response).search_keywords = (chatResult0 o).search_keywords ∧
    (chatResult0 o).search_keywords = (o.completions 0).search_keywords ∧
    ((chat o input).1.my_response).summary = (o.completions 1).summary ∧
    ((chat o input).1.my_response).full_explanation = (o.completions 2).full_explanation ∧
    ((chat o input).1.my_response).relevant_sources = chatRelevantSources o :=
  ⟨rfl, rfl, rfl, rfl, rfl⟩

/-- C2: relevant_sources in the final /chat response is the ordered list of
link values of the first five organic results, so its length is at most 5 and
at most the number of organic results, and it is empty when there are none. -/
theorem chat_relevant_sources_spec (o : Oracle) (input : ChatInput) :
    ((chat o input).1.my_response).relevant_sources =
      ((organicResults o).take 5).map (fun r => r.link) ∧
    ((chat o input).1.my_response).relevant_sources.length ≤ 5 ∧
    ((chat o input).1.my_response).relevant_sources.length ≤ (organicResults o).length ∧
    (organicResults o = [] → ((chat o input).1.my_response).relevant_sources = []) := by
  refine ⟨rfl, ?_, ?_, ?_⟩
  · show (chatRelevantSources o).length ≤ 5
    simp [chatRelevantSources]
  · show (chatRelevantSources o).length ≤ (organicResults o).length
    simp [chatRelevantSources]
  · intro h
    show chatRelevantSources o = []
    simp [chatRelevantSources, h]

/-- C2 witness: with an environment returning no organic results, the final
relevant_sources list is empty. -/
theorem chat_relevant_sources_spec_witness :
    organicResults emptyOracle = [] ∧
    ((chat emptyOracle ⟨"hi"⟩).1.my_response).relevant_sources = [] :=
  ⟨rfl, (chat_relevant_sources_spec emptyOracle ⟨"hi"⟩).2.2.2 rfl⟩

/-- C5: the two final completion calls of a /chat request receive the same
message list, namely the original two messages followed by both appended
system instructions; the second call result supplies the final summary and
the third call result supplies the final full_explanation. -/
theorem chat_final_calls_identical (o : Oracle) (input : ChatInput) :
    completionInputs (chat o input).2 =
      [initialMessages input.input_message,
       finalMessages o input.input_message,
       finalMessages o input.input_message] ∧
    finalMessages o input.input_message =
      initialMessages input.input_message ++
        [⟨"system", "Summarize the following information: " ++ summaryInput o⟩,
         ⟨"system", "Give a detailed explanation of the following information: " ++ summaryInput o⟩] ∧
    ((chat o input).1.my_response).summary = (o.completions 1).summary ∧
    ((chat o input).1.my_response).full_explanation = (o.completions 2).full_explanation := by
  refine ⟨?_, rfl, rfl, rfl⟩
  show completionInputs
      ([ChatEvent.completionCall (initialMessages input.input_message),
        ChatEvent.searchCall (searchQuery o)]
       ++ (chatRelevantSources o).map ChatEvent.fetchCall
       ++ [ChatEvent.completionCall (finalMessages o input.input_message),
           ChatEvent.completionCall (finalMessages o input.input_message)]) = _
  simp [completionInputs, List.filterMap_append, List.filterMap_cons]

/-- C8: every /chat request makes at least 3 completion calls (in fact
exactly 3) and exactly one search call. -/
theorem chat_call_counts (o : Oracle) (input : ChatInput) :
    3 ≤ completionCallCount (chat o input).2 ∧
    searchCallCount (chat o input).2 = 1 := by
  have hc : completionCallCount (chat o input).2 = 3 := by
    show completionCallCount
        ([ChatEvent.completionCall (initialMessages input.input_message),
          ChatEvent.searchCall (searchQuery o)]
         ++ (chatRelevantSources o).map ChatEvent.fetchCall
         ++ [ChatEvent.completionCall (finalMessages o input.input_message),
             ChatEvent.completionCall (finalMessages o input.input_message)]) = 3
    simp [completionCallCount, List.filter_append, List.filter_cons,
      isCompletionCall, filter_isCompletionCall_map_fetchCall]
  have hs : searchCallCount (chat o input).2 = 1 := by
    show searchCallCount
        ([ChatEvent.completionCall (initialMessages input.input_message),
          ChatEvent.searchCall (searchQuery o)]
         ++ (chatRelevantSources o).map ChatEvent.fetchCall
         ++ [ChatEvent.completionCall (finalMessages o input.input_message),
             ChatEvent.completionCall (finalMessages o input.input_message)]) = 1
    simp [searchCallCount, List.filter_append, List.filter_cons,
      isSearchCall, filter_isSearchCall_map_fetchCall]
  exact ⟨by omega, hs⟩

/-- C3: if fetching the i-th link of relevant_sources raises an exception
with message e, the i-th entry of the scraped corpus is exactly the sentinel
string, the exception does not propagate (the corpus still has one entry per
link), and the pipeline processes every link in link order. -/
theorem chat_scrape_error_sentinel (o : Oracle) (input : ChatInput) (i : Nat)
    (u : Option String) (e : String)
    (hs : (chatRelevantSources o)[i]? = some u)
    (he : o.fetch u = Except.error e) :
    (chatRelevantInformation o)[i]? =
      some ("Error fetching content from " ++ pyUrlStr u ++ ": " ++ e) ∧
    (chatRelevantInformation o).length = (chatRelevantSources o).length ∧
    chatRelevantInformation o = (chatRelevantSources o).map (scrapeOne o.fetch) ∧
    fetchCalls (chat o input).2 = chatRelevantSources o := by
  refine ⟨?_, chatRelevantInformation_length o, rfl, fetchCalls_chat o input⟩
  simp [chatRelevantInformation, List.getElem?_map, hs, scrapeOne, he]

/-- C3 witness: in the sample environment the second source lacks a link, so
its fetch raises, and the second corpus entry is the sentinel string. -/
theorem chat_scrape_error_sentinel_witness :
    (chatRelevantInformation sampleOracle)[1]? =
      some "Error fetching content from None: boom" :=
  (chat_scrape_error_sentinel sampleOracle ⟨"q"⟩ 1 none "boom" rfl rfl).1

/-- C7: when the search provider response has no organic_results key, the
extraction yields the empty list, relevant_sources is empty, and the pipeline
still assembles and returns the final result. -/
theorem chat_missing_organic_key (o : Oracle) (input : ChatInput)
    (h : o.searchResult.organic_results = none) :
    organicResults o = [] ∧
    ((chat o input).1.my_response).relevant_sources = [] ∧
    chatRelevantInformation o = [] ∧
    (chat o input).1.my_response = chatFinalResult o := by
  have h0 : organicResults o = [] := by simp [organicResults, h]
  refine ⟨h0, ?_, ?_, rfl⟩
  · show chatRelevantSources o = []
    simp [chatRelevantSources, h0]
  · simp [chatRelevantInformation, chatRelevantSources, h0]

/-- C7 witness: the empty environment has no organic_results key and its chat
response carries an empty relevant_sources list. -/
theorem chat_missing_organic_key_witness :
    organicResults emptyOracle = [] ∧
    ((chat emptyOracle ⟨"x"⟩).1.my_response).relevant_sources = [] ∧
    chatRelevantInformation emptyOracle = [] :=
  ⟨(chat_missing_organic_key emptyOracle ⟨"x"⟩ rfl).1,
   (chat_missing_organic_key emptyOracle ⟨"x"⟩ rfl).2.1,
   (chat_missing_organic_key emptyOracle ⟨"x"⟩ rfl).2.2.1⟩

/-- C9: when one of the first five organic results lacks a link key, the
corresponding position of relevant_sources holds none (the entry is not
skipped: the list still has one entry per retained organic result), and that
none value is passed to the page fetcher as the i-th fetch call. -/
theorem chat_missing_link_none (o : Oracle) (input : ChatInput) (i : Nat)
    (r : OrganicResult) (h5 : i < 5)
    (hr : (organicResults o)[i]? = some r) (hlink : r.link = none) :
    (chatRelevantSources o)[i]? = some none ∧
    (chatRelevantSources o).length = min 5 (organicResults o).length ∧
    (fetchCalls (chat o input).2)[i]? = some none := by
  have hsrc : (chatRelevantSources o)[i]? = some none := by
    simp [chatRelevantSources, List.getElem?_map, List.getElem?_take, h5, hr, hlink]
  refine ⟨hsrc, ?_, ?_⟩
  · simp [chatRelevantSources]
  · rw [fetchCalls_chat]
    exact hsrc

/-- C9 witness: the sample environment's second organic result lacks a link,
the second relevant source is none, and the second fetch call receives none. -/
theorem chat_missing_link_none_witness :
    (chatRelevantSources sampleOracle)[1]? = some none ∧
    (fetchCalls (chat sampleOracle ⟨"y"⟩).2)[1]? = some none :=
  ⟨(chat_missing_link_none sampleOracle ⟨"y"⟩ 1 ⟨none⟩ (by decide) rfl rfl).1,
   (chat_missing_link_none sampleOracle ⟨"y"⟩ 1 ⟨none⟩ (by decide) rfl rfl).2.2⟩

/-- C4: the /preview handler is total and always yields one of its two normal
response shapes; when fetching or parsing raises with message e it returns
exactly the error payload with title "Error fetching preview", url_host
"Error" and that message. -/
theorem preview_always_normal (o : Oracle) (url : String) :
    (∀ e, o.fetch (some url) = Except.error e →
      get_preview o url = PreviewResponse.failure "Error fetching preview" "Error" e) ∧
    ((∃ t h, get_preview o url = PreviewResponse.success t h) ∨
     (∃ e, get_preview o url = PreviewResponse.failure "Error fetching preview" "Error" e)) := by
  constructor
  · intro e he
    simp [get_preview, he]
  · cases hf : o.fetch (some url) with
    | ok s => exact Or.inl ⟨previewTitle s, o.netloc url, by simp [get_preview, hf]⟩
    | error e => exact Or.inr ⟨e, by simp [get_preview, hf]⟩

/-- C4 witness: previewing through the failing environment yields the exact
error payload. -/
theorem preview_always_normal_witness :
    get_preview emptyOracle "http://x" =
      PreviewResponse.failure "Error fetching preview" "Error" "boom" :=
  (preview_always_normal emptyOracle "http://x").1 "boom" rfl

/-- C6: on a successful fetch, /preview returns the text of the title element
when one is present with string content, the fallback "No title found" when
no title element exists, and in both cases the network host of the input
url. -/
theorem preview_success_title_host (o : Oracle) (url : String) (soup : Soup)
    (hf : o.fetch (some url) = Except.ok soup) :
    (∀ t s, soup.title = some t → t.string = some s →
      get_preview o url = PreviewResponse.success (some s) (o.netloc url)) ∧
    (soup.title = none →
      get_preview o url = PreviewResponse.success (some "No title found") (o.netloc url)) := by
  constructor
  · intro t s ht hs
    simp [get_preview, hf, previewTitle, ht, hs]
  · intro ht
    simp [get_preview, hf, previewTitle, ht]

/-- C6 witness: previewing the sample page titled Example through the sample
environment returns that title and the host. -/
theorem preview_success_title_host_witness :
    get_preview sampleOracle "http://a" =
      PreviewResponse.success (some "Example") "example.com" :=
  (preview_success_title_host sampleOracle "http://a" sampleSoup rfl).1
    ⟨some "Example"⟩ "Example" rfl rfl

/-- C10: when a title element is present the returned title is its string
attribute, never the fallback branch; in particular an empty title element
yields the none value, which differs from the fallback payload; the fallback
"No title found" comes only from the branch where no title element exists. -/
theorem preview_empty_title_not_fallback (o : Oracle) (url : String) (soup : Soup)
    (hf : o.fetch (some url) = Except.ok soup) :
    (∀ t, soup.title = some t → previewTitle soup = t.string) ∧
    (∀ t, soup.title = some t → t.string = none →
      get_preview o url = PreviewResponse.success none (o.netloc url) ∧
      PreviewResponse.success (none : Option String) (o.netloc url) ≠
        PreviewResponse.success (some "No title found") (o.netloc url)) ∧
    (soup.title = none → previewTitle soup = some "No title found") := by
  refine ⟨?_, ?_, ?_⟩
  · intro t ht
    simp [previewTitle, ht]
  · intro t ht hs
    refine ⟨by simp [get_preview, hf, previewTitle, ht, hs], by simp⟩
  · intro ht
    simp [previewTitle, ht]

/-- C10 witness: previewing a page with an empty title element returns the
none title, not the fallback string. -/
theorem preview_empty_title_not_fallback_witness :
    get_preview emptyTitleOracle "http://e" = PreviewResponse.success none "host" :=
  ((preview_empty_title_not_fallback emptyTitleOracle "http://e" emptyTitleSoup rfl).2.1
    ⟨none⟩ rfl rfl).1
